import Mathlib

/-!
Verification of the starweb page-analysis pipeline.

Shallow embedding of the core functions of the repository:
* the labelled-section narrative parser and point post-processing of
  `analyzePageWithAI` / `analyzeAssetsWithAI` / `analyzeContentWithAI`
  (src/api/analyze.js),
* the heuristic default analysis `generateDefaultAnalysis` and the
  credential bypass in `analyzePageContent` (serverless handler),
* the screenshot location resolver `findElementLocation` (App component),
* the `autoScroll` sweep loop.

Strings are modelled as `List Char`; machine numbers that the code only
compares (sizes, counts, coordinates) as `Nat`/`Int`.
-/

namespace StarWeb

/-- ASCII whitespace recognised by the embedding of JS `trim` / `\s`
(the characters that can occur in this development). -/
def isWS (c : Char) : Bool :=
  c = ' ' || c = '\t' || c = '\n' || c = '\r' || c = '\x0b' || c = '\x0c'

/-- Embedding of `String.prototype.trim`: drop whitespace at both ends. -/
def trimChars (l : List Char) : List Char :=
  ((l.dropWhile isWS).reverse.dropWhile isWS).reverse

/-- Embedding of `text.split('\n')`: JS semantics, so `"" ⇒ [""]` and a
trailing newline yields a trailing empty field. -/
def splitNl : List Char → List (List Char)
  | [] => [[]]
  | c :: t =>
    if c = '\n' then [] :: splitNl t
    else
      match splitNl t with
      | [] => [[c]]
      | l :: ls => (c :: l) :: ls

/-- The suffix of `hay` after the first (leftmost) occurrence of `needle`,
or `none` when `needle` does not occur.  This is where the JS regexes
`/Label:(.*?).../s` anchor their capture group. -/
def findAfter (needle : List Char) : List Char → Option (List Char)
  | [] => if needle.isEmpty then some [] else none
  | c :: t =>
    if needle.isPrefixOf (c :: t) then some ((c :: t).drop needle.length)
    else findAfter needle t

/-- `needle` occurs somewhere in `hay`. -/
def containsSub (needle hay : List Char) : Bool :=
  (findAfter needle hay).isSome

/-- The characters of `l` strictly before the first occurrence of `needle`
(all of `l` when `needle` does not occur): the value captured by a lazy
`(.*?)` bounded by the lookahead `(?=needle|$)` under the `s` flag. -/
def takeUntilSub (needle : List Char) : List Char → List Char
  | [] => []
  | c :: t =>
    if needle.isPrefixOf (c :: t) then []
    else c :: takeUntilSub needle t

/-- Embedding of `text.match(/label(.*?)(?=next|$)/s)[1]`: capture group of
the leftmost match — the text after the first `label` up to the first
following `next` (or the end), `none` when `label` does not occur. -/
def sectionBetween (label next text : List Char) : Option (List Char) :=
  (findAfter label text).map (takeUntilSub next)

/-- Embedding of `text.match(/label(.*?)$/s)[1]`: everything after the
first occurrence of `label`. -/
def sectionToEnd (label text : List Char) : Option (List Char) :=
  findAfter label text

/-- Embedding of the test `point.match(/^[-•*]/)`: the line starts with a
bullet marker character. -/
def startsBullet : List Char → Bool
  | [] => false
  | c :: _ => c = '-' || c = '•' || c = '*'

/-- Embedding of `point.replace(/^[0-9]+\.\s*/, '')`: remove a leading
maximal digit run followed by a dot and any whitespace; leave the line
unchanged when that prefix pattern does not match. -/
def stripOrdinal (l : List Char) : List Char :=
  let ds := l.takeWhile Char.isDigit
  if ds.isEmpty then l
  else
    match l.drop ds.length with
    | '.' :: rest => rest.dropWhile isWS
    | _ => l

/-- Embedding of the per-section point pipeline used identically in all
three AI response parsers:
`.split('\n').map(trim).filter(p => p && !p.match(/^[-•*]/)).map(p => p.replace(/^[0-9]+\.\s*\x2f, ''))`. -/
def processPoints (s : List Char) : List (List Char) :=
  (((splitNl s).map trimChars).filter
      (fun p => !p.isEmpty && !startsBullet p)).map stripOrdinal

/-- A section value (`undefined` or captured text) to its point list:
`section ? pipeline(section) : []`. -/
def sectionPoints (sec : Option (List Char)) : List String :=
  match sec with
  | none => []
  | some s => (processPoints s).map (fun l => ⟨l⟩)

structure VisualAnalysis where
  exitPoints : List String
  designIssues : List String
  recommendations : List String
deriving DecidableEq, Repr

structure AssetsAnalysis where
  performanceIssues : List String
  accessibilityIssues : List String
  seoIssues : List String
  bestPractices : List String
  recommendations : List String
deriving DecidableEq, Repr

structure ContentAnalysis where
  structureIssues : List String
  qualityIssues : List String
  seoIssues : List String
  uxIssues : List String
  recommendations : List String
deriving DecidableEq, Repr

structure AnalysisResult where
  visual : VisualAnalysis
  assets : AssetsAnalysis
  content : ContentAnalysis
deriving DecidableEq, Repr

/-- Section extraction of `analyzePageWithAI` applied to a response text. -/
def parseVisualNarrative (text : List Char) : VisualAnalysis :=
  { exitPoints :=
      sectionPoints (sectionBetween "Exit Points:".toList "Design Issues:".toList text)
  , designIssues :=
      sectionPoints (sectionBetween "Design Issues:".toList "Recommendations:".toList text)
  , recommendations :=
      sectionPoints (sectionToEnd "Recommendations:".toList text) }

/-- Section extraction of `analyzeAssetsWithAI` applied to a response text. -/
def parseAssetsNarrative (text : List Char) : AssetsAnalysis :=
  { performanceIssues :=
      sectionPoints (sectionBetween "Performance Issues:".toList "Accessibility Issues:".toList text)
  , accessibilityIssues :=
      sectionPoints (sectionBetween "Accessibility Issues:".toList "SEO Issues:".toList text)
  , seoIssues :=
      sectionPoints (sectionBetween "SEO Issues:".toList "Best Practices:".toList text)
  , bestPractices :=
      sectionPoints (sectionBetween "Best Practices:".toList "Recommendations:".toList text)
  , recommendations :=
      sectionPoints (sectionToEnd "Recommendations:".toList text) }

/-- Section extraction of `analyzeContentWithAI` applied to a response text. -/
def parseContentNarrative (text : List Char) : ContentAnalysis :=
  { structureIssues :=
      sectionPoints (sectionBetween "Content Structure Issues:".toList "Content Quality Issues:".toList text)
  , qualityIssues :=
      sectionPoints (sectionBetween "Content Quality Issues:".toList "SEO Content Issues:".toList text)
  , seoIssues :=
      sectionPoints (sectionBetween "SEO Content Issues:".toList "UX/UI Issues:".toList text)
  , uxIssues :=
      sectionPoints (sectionBetween "UX/UI Issues:".toList "Recommendations:".toList text)
  , recommendations :=
      sectionPoints (sectionToEnd "Recommendations:".toList text) }

/-- Outcome of one chat-completion request in the express pipeline
(src/api/analyze.js): `ok text` — the request resolved and
`choices[0].message.content || ''` is `text`; `err` — the request threw
(network error, non-success status, or a response without
`choices[0].message`), landing in the `catch` block. -/
inductive AIOutcome where
  | ok (text : String)
  | err
deriving DecidableEq, Repr

/-- The record returned by the `catch` block of `analyzeAssetsWithAI`. -/
def errorAssetsAnalysis : AssetsAnalysis :=
  { performanceIssues := ["Error analyzing assets with AI"]
  , accessibilityIssues := []
  , seoIssues := []
  , bestPractices := []
  , recommendations := [] }

/-- The record returned by the `catch` block of `analyzeContentWithAI`. -/
def errorContentAnalysis : ContentAnalysis :=
  { structureIssues := ["Error analyzing content with AI"]
  , qualityIssues := []
  , seoIssues := []
  , uxIssues := []
  , recommendations := [] }

/-- The record returned by the `catch` block of `analyzePageWithAI`. -/
def errorVisualAnalysis : VisualAnalysis :=
  { exitPoints := ["Error analyzing page with AI"]
  , designIssues := []
  , recommendations := [] }

/-- `analyzeAssetsWithAI` as a function of the request outcome. -/
def analyzeAssetsWithAI : AIOutcome → AssetsAnalysis
  | .ok text => parseAssetsNarrative text.toList
  | .err => errorAssetsAnalysis

/-- `analyzeContentWithAI` as a function of the request outcome. -/
def analyzeContentWithAI : AIOutcome → ContentAnalysis
  | .ok text => parseContentNarrative text.toList
  | .err => errorContentAnalysis

/-- `analyzePageWithAI` as a function of the request outcome. -/
def analyzePageWithAI : AIOutcome → VisualAnalysis
  | .ok text => parseVisualNarrative text.toList
  | .err => errorVisualAnalysis

/-- The `analysis` field assembled by `analyze` (src/api/analyze.js):
the three category analyses are computed independently, each from its own
request outcome. -/
def analyzeAnalysis (v a c : AIOutcome) : AnalysisResult :=
  { visual := analyzePageWithAI v
  , assets := analyzeAssetsWithAI a
  , content := analyzeContentWithAI c }

/-- The express `analyze` pipeline always issues its model requests — it
contains no credential check.  Result paired with the request-issued flag. -/
def analyzeExpress (v a c : AIOutcome) : AnalysisResult × Bool :=
  (analyzeAnalysis v a c, true)

/-! ### Page data model

Field layout follows the TypeScript types of the App component and the
records built by the extractors; fields never consulted by the modelled
functions (`src`, `loading`, `poster`, ...) are omitted.  Coordinates are
opaque to every modelled function (they are only copied, never computed
with), so they are embedded as `Int`. -/

structure BBox where
  x : Int
  y : Int
  width : Int
  height : Int
deriving DecidableEq, Repr

/-- An entry of `assets.images` (extractAssets): carries `alt`, pixel
`width`/`height` and a bounding box. -/
structure AssetImage where
  alt : String
  width : Nat
  height : Nat
  location : BBox
deriving DecidableEq, Repr

/-- An entry of `assets.videos`. -/
structure VideoEl where
  location : BBox
deriving DecidableEq, Repr

/-- `assets` as consumed by `generateDefaultAnalysis` and the resolver. -/
structure Assets where
  images : List AssetImage
  videos : List VideoEl
deriving DecidableEq, Repr

structure Heading where
  text : String
  level : Nat
  location : BBox
deriving DecidableEq, Repr

structure Paragraph where
  text : String
  location : BBox
deriving DecidableEq, Repr

/-- An entry of `content.images` (the serverless extractor's image record). -/
structure ContentImage where
  alt : String
  location : BBox
deriving DecidableEq, Repr

structure FormEl where
  location : BBox
deriving DecidableEq, Repr

structure NavEl where
  location : BBox
deriving DecidableEq, Repr

structure PageLink where
  url : String
  text : String
  location : BBox
deriving DecidableEq, Repr

structure TextContent where
  headings : Option (List Heading)
  paragraphs : Option (List Paragraph)
deriving DecidableEq, Repr

structure Metadata where
  description : Option String
deriving DecidableEq, Repr

/-- `content` with the optionality of the TypeScript `PageContent` type:
every access in the code is guarded (`content.textContent?.headings || []`,
`content.metadata?.description`, ...). -/
structure PageContent where
  textContent : Option TextContent
  images : Option (List ContentImage)
  forms : Option (List FormEl)
  navigation : Option (List NavEl)
  metadata : Option Metadata
deriving DecidableEq, Repr

/-- The `PageAnalysis` slice the location resolver reads. -/
structure PageAnalysis where
  content : PageContent
  assets : Assets
  links : Option (List PageLink)
deriving DecidableEq, Repr

/-- `content.textContent?.headings || []`. -/
def headingsOf (c : PageContent) : List Heading :=
  match c.textContent with
  | none => []
  | some tc => tc.headings.getD []

/-- `content.textContent?.paragraphs || []`. -/
def paragraphsOf (c : PageContent) : List Paragraph :=
  match c.textContent with
  | none => []
  | some tc => tc.paragraphs.getD []

/-! ### Heuristic Analyzer (`generateDefaultAnalysis`, serverless handler) -/

/-- `!img.alt || img.alt.trim() === ''`. -/
def missingAlt (alt : String) : Bool :=
  alt == "" || (⟨trimChars alt.data⟩ : String) == ""

/-- `img.width > 1000 || img.height > 1000`. -/
def isLargeImage (img : AssetImage) : Bool :=
  img.width > 1000 || img.height > 1000

/-- `!content.metadata?.description || content.metadata.description.trim() === ''`. -/
def missingDescription (c : PageContent) : Bool :=
  match c.metadata with
  | none => true
  | some m =>
    match m.description with
    | none => true
    | some d => d == "" || (⟨trimChars d.data⟩ : String) == ""

/-- The sequence of `push`es of `generateDefaultAnalysis`, written as list
appends in push order. -/
def generateDefaultAnalysis (content : PageContent) (assets : Assets) : AnalysisResult :=
  let imagesWithoutAlt := assets.images.filter (fun img => missingAlt img.alt)
  let largeImages := assets.images.filter isLargeImage
  let headings := headingsOf content
  let h1Count := (headings.filter (fun h => h.level == 1)).length
  let paragraphs := paragraphsOf content
  { visual := { exitPoints := [], designIssues := [], recommendations := [] }
  , assets :=
    { performanceIssues :=
        if largeImages.length > 0 then
          [toString largeImages.length ++ " large images may slow down page load"]
        else []
    , accessibilityIssues :=
        if imagesWithoutAlt.length > 0 then
          [toString imagesWithoutAlt.length ++ " images missing alt text"]
        else []
    , seoIssues := []
    , bestPractices := []
    , recommendations :=
        (if imagesWithoutAlt.length > 0 then ["Add descriptive alt text to all images"] else []) ++
        (if largeImages.length > 0 then ["Optimize and resize large images"] else []) }
  , content :=
    { structureIssues :=
        if headings.length = 0 then ["No headings found on the page"]
        else if h1Count = 0 then ["No H1 heading found"]
        else if h1Count > 1 then
          ["Multiple H1 headings (" ++ toString h1Count ++ ") found"]
        else []
    , qualityIssues :=
        if paragraphs.length < 3 then ["Limited text content found"] else []
    , seoIssues :=
        if missingDescription content then ["Missing meta description"] else []
    , uxIssues := []
    , recommendations :=
        (if headings.length = 0 then ["Add proper heading structure (H1, H2, etc.)"]
         else if h1Count = 0 then ["Add a single H1 heading as the main title"]
         else if h1Count > 1 then ["Use only one H1 heading per page"]
         else []) ++
        (if missingDescription content then ["Add a descriptive meta description"] else []) ++
        (if paragraphs.length < 3 then ["Add more descriptive text content"] else []) }
  }

/-- Outcome of the single JSON-mode request of `analyzePageContent`:
`ok r` — the response parsed as an `AnalysisResult`; `err` — the request
or `JSON.parse` threw. -/
inductive AIJsonOutcome where
  | ok (r : AnalysisResult)
  | err
deriving DecidableEq, Repr

/-- `analyzePageContent` (serverless handler): the credential check, the
model call, and the fallback to `generateDefaultAnalysis`.  The second
component records whether a model request was issued. -/
def analyzePageContent (hasApiKey : Bool) (ai : AIJsonOutcome)
    (content : PageContent) (assets : Assets) : AnalysisResult × Bool :=
  if !hasApiKey then (generateDefaultAnalysis content assets, false)
  else
    match ai with
    | .ok r => (r, true)
    | .err => (generateDefaultAnalysis content assets, true)

/-! ### Location Resolver (`findElementLocation`, App component) -/

/-- The `issueType` parameter's closed set of values. -/
inductive IssueType where
  | exitPoint
  | designIssue
  | performance
  | accessibility
  | seo
  | content
  | other
deriving DecidableEq, Repr

/-- `pageAnalysis.content?.images || []`. -/
def imagesOfPA (pa : PageAnalysis) : List ContentImage := pa.content.images.getD []

/-- `pageAnalysis.assets?.videos || []`. -/
def videosOfPA (pa : PageAnalysis) : List VideoEl := pa.assets.videos

/-- `pageAnalysis.content?.textContent?.headings || []`. -/
def headingsOfPA (pa : PageAnalysis) : List Heading := headingsOf pa.content

/-- `pageAnalysis.content?.textContent?.paragraphs || []`. -/
def paragraphsOfPA (pa : PageAnalysis) : List Paragraph := paragraphsOf pa.content

/-- `pageAnalysis.links || []`. -/
def linksOfPA (pa : PageAnalysis) : List PageLink := pa.links.getD []

/-- `pageAnalysis.content?.forms || []`. -/
def formsOfPA (pa : PageAnalysis) : List FormEl := pa.content.forms.getD []

/-- `pageAnalysis.content?.navigation || []`. -/
def navOfPA (pa : PageAnalysis) : List NavEl := pa.content.navigation.getD []

/-- The `hasElements` disjunction: some collection has length `> 0`. -/
def hasElements (pa : PageAnalysis) : Bool :=
  !(imagesOfPA pa).isEmpty || !(videosOfPA pa).isEmpty ||
  !(headingsOfPA pa).isEmpty || !(paragraphsOfPA pa).isEmpty ||
  !(linksOfPA pa).isEmpty || !(formsOfPA pa).isEmpty || !(navOfPA pa).isEmpty

/-- `issue.toLowerCase()` for the ASCII issue texts in play. -/
def toLowerChars (l : List Char) : List Char := l.map Char.toLower

/-- The `switch (issueType)` block: the conditionally assigned `location`
variable, `none` when a case assigns nothing.  `issueLower` is the
lower-cased issue text. -/
def resolveByType (issueLower : List Char) (pa : PageAnalysis) (index : Nat) :
    IssueType → Option BBox
  | .exitPoint =>
    let links := linksOfPA pa
    if links.length > 0 then
      (links[min index (links.length - 1)]?).map (·.location)
    else none
  | .designIssue =>
    let allImages := imagesOfPA pa
    if allImages.length > 0 then
      (allImages[min index (allImages.length - 1)]?).map (·.location)
    else none
  | .performance =>
    if containsSub "image".toList issueLower && (imagesOfPA pa).length > 0 then
      ((imagesOfPA pa)[0]?).map (·.location)
    else if containsSub "video".toList issueLower && (videosOfPA pa).length > 0 then
      ((videosOfPA pa)[0]?).map (·.location)
    else if (imagesOfPA pa).length > 0 then
      ((imagesOfPA pa)[0]?).map (·.location)
    else none
  | .accessibility =>
    if containsSub "form".toList issueLower && (formsOfPA pa).length > 0 then
      ((formsOfPA pa)[0]?).map (·.location)
    else if containsSub "image".toList issueLower && (imagesOfPA pa).length > 0 then
      ((imagesOfPA pa)[0]?).map (·.location)
    else if containsSub "navigation".toList issueLower && (navOfPA pa).length > 0 then
      ((navOfPA pa)[0]?).map (·.location)
    else if (imagesOfPA pa).length > 0 then
      ((imagesOfPA pa)[0]?).map (·.location)
    else none
  | .seo =>
    if containsSub "heading".toList issueLower && (headingsOfPA pa).length > 0 then
      ((headingsOfPA pa)[0]?).map (·.location)
    else if containsSub "content".toList issueLower && (paragraphsOfPA pa).length > 0 then
      ((paragraphsOfPA pa)[0]?).map (·.location)
    else if (headingsOfPA pa).length > 0 then
      ((headingsOfPA pa)[0]?).map (·.location)
    else none
  | .content =>
    let paragraphs := paragraphsOfPA pa
    let headings := headingsOfPA pa
    if paragraphs.length > 0 then
      (paragraphs[min index (paragraphs.length - 1)]?).map (·.location)
    else if headings.length > 0 then
      (headings[min index (headings.length - 1)]?).map (·.location)
    else none
  | .other =>
    if containsSub "navigation".toList issueLower && (navOfPA pa).length > 0 then
      ((navOfPA pa)[0]?).map (·.location)
    else if containsSub "image".toList issueLower && (imagesOfPA pa).length > 0 then
      ((imagesOfPA pa)[0]?).map (·.location)
    else if containsSub "text".toList issueLower && (paragraphsOfPA pa).length > 0 then
      ((paragraphsOfPA pa)[0]?).map (·.location)
    else if containsSub "link".toList issueLower && (linksOfPA pa).length > 0 then
      ((linksOfPA pa)[0]?).map (·.location)
    else none

/-- The final fallback chain
`allImages[0]?.location || headings[0]?.location || paragraphs[0]?.location ||
links[0]?.location || forms[0]?.location || navigation[0]?.location ||
allVideos[0]?.location` (a present location object is always truthy). -/
def fallbackChain (pa : PageAnalysis) : Option BBox :=
  match imagesOfPA pa, headingsOfPA pa, paragraphsOfPA pa, linksOfPA pa,
      formsOfPA pa, navOfPA pa, videosOfPA pa with
  | i :: _, _, _, _, _, _, _ => some i.location
  | [], h :: _, _, _, _, _, _ => some h.location
  | [], [], p :: _, _, _, _, _ => some p.location
  | [], [], [], l :: _, _, _, _ => some l.location
  | [], [], [], [], f :: _, _, _ => some f.location
  | [], [], [], [], [], n :: _, _ => some n.location
  | [], [], [], [], [], [], v :: _ => some v.location
  | [], [], [], [], [], [], [] => none

/-- `findElementLocation`: early `undefined` when no elements exist at
all, then the `switch` assignment, then the fallback chain. -/
def findElementLocation (issue : String) (pa : PageAnalysis) (index : Nat)
    (issueType : IssueType) : Option BBox :=
  if !hasElements pa then none
  else
    match resolveByType (toLowerChars issue.data) pa index issueType with
    | some loc => some loc
    | none => fallbackChain pa

/-- Every location field present in the page analysis, over the seven
collections the resolver reads. -/
def allLocations (pa : PageAnalysis) : List BBox :=
  (imagesOfPA pa).map (·.location) ++ (videosOfPA pa).map (·.location) ++
  (headingsOfPA pa).map (·.location) ++ (paragraphsOfPA pa).map (·.location) ++
  (linksOfPA pa).map (·.location) ++ (formsOfPA pa).map (·.location) ++
  (navOfPA pa).map (·.location)

/-! ### `autoScroll` (src/api/analyze.js)

The loop keeps a `totalHeight` accumulator; at each tick it reads
`document.body.scrollHeight` afresh, scrolls by `distance = 100`, adds
`100` to the accumulator, and stops when `totalHeight >= scrollHeight`.
A page is modelled by the scroll height the tick `t` read observes. -/

/-- After tick `t` (counting from `0`) the accumulator holds
`100 * (t + 1)`; the loop's stop test at tick `t` compares it with the
scroll height read at that tick. -/
def autoScrollStopsAt (scrollHeight : Nat → Nat) (t : Nat) : Prop :=
  100 * (t + 1) ≥ scrollHeight t

instance (scrollHeight : Nat → Nat) (t : Nat) :
    Decidable (autoScrollStopsAt scrollHeight t) := by
  unfold autoScrollStopsAt; infer_instance

/-- The sweep terminates: some tick passes the stop test. -/
def autoScrollTerminates (scrollHeight : Nat → Nat) : Prop :=
  ∃ t, autoScrollStopsAt scrollHeight t

/-- A zero bounding box for witness records. -/
def bb0 : BBox := { x := 0, y := 0, width := 0, height := 0 }

/-- Witness assets: two images with empty/whitespace alt text. -/
def altWitnessAssets : Assets :=
  { images := [{ alt := "", width := 10, height := 10, location := bb0 },
               { alt := " ", width := 10, height := 10, location := bb0 }]
  , videos := [] }

/-- Witness content: a single H2 heading and nothing else. -/
def h2OnlyContent : PageContent :=
  { textContent := some { headings := some [{ text := "Sub", level := 2, location := bb0 }]
                        , paragraphs := none }
  , images := none, forms := none, navigation := none, metadata := none }

/-- Witness page analysis: exactly one link and nothing else. -/
def oneLinkPA : PageAnalysis :=
  { content := { textContent := none, images := none, forms := none,
                 navigation := none, metadata := none }
  , assets := { images := [], videos := [] }
  , links := some [{ url := "u", text := "home", location := bb0 }] }

/-- Witness page analysis: exactly one image and nothing else. -/
def oneImagePA : PageAnalysis :=
  { content := { textContent := none,
                 images := some [{ alt := "a", location := bb0 }],
                 forms := none, navigation := none, metadata := none }
  , assets := { images := [], videos := [] }
  , links := none }

/-- A page content record with every optional field absent. -/
def emptyPageContent : PageContent :=
  { textContent := none, images := none, forms := none, navigation := none,
    metadata := none }

/-- An assets record with no images and no videos. -/
def emptyAssets : Assets := { images := [], videos := [] }

end StarWeb

namespace StarWeb

/-! ### Theorems -/

/-- A label that does not occur anywhere yields no match. -/
theorem findAfter_eq_none_of_not_contains (label text : List Char)
    (h : containsSub label text = false) : findAfter label text = none := by
  cases hf : findAfter label text with
  | none => rfl
  | some v =>
    exfalso
    rw [containsSub, hf] at h
    simp at h

/-- A location taken from the images collection occurs in `allLocations`. -/
theorem mem_allLocations_of_images {pa : PageAnalysis} {e : ContentImage}
    (h : e ∈ imagesOfPA pa) : e.location ∈ allLocations pa := by
  simp only [allLocations, List.mem_append, List.mem_map]
  exact Or.inl (Or.inl (Or.inl (Or.inl (Or.inl (Or.inl ⟨e, h, rfl⟩)))))

/-- A location taken from the videos collection occurs in `allLocations`. -/
theorem mem_allLocations_of_videos {pa : PageAnalysis} {e : VideoEl}
    (h : e ∈ videosOfPA pa) : e.location ∈ allLocations pa := by
  simp only [allLocations, List.mem_append, List.mem_map]
  exact Or.inl (Or.inl (Or.inl (Or.inl (Or.inl (Or.inr ⟨e, h, rfl⟩)))))

/-- A location taken from the headings collection occurs in `allLocations`. -/
theorem mem_allLocations_of_headings {pa : PageAnalysis} {e : Heading}
    (h : e ∈ headingsOfPA pa) : e.location ∈ allLocations pa := by
  simp only [allLocations, List.mem_append, List.mem_map]
  exact Or.inl (Or.inl (Or.inl (Or.inl (Or.inr ⟨e, h, rfl⟩))))

/-- A location taken from the paragraphs collection occurs in `allLocations`. -/
theorem mem_allLocations_of_paragraphs {pa : PageAnalysis} {e : Paragraph}
    (h : e ∈ paragraphsOfPA pa) : e.location ∈ allLocations pa := by
  simp only [allLocations, List.mem_append, List.mem_map]
  exact Or.inl (Or.inl (Or.inl (Or.inr ⟨e, h, rfl⟩)))

/-- A location taken from the links collection occurs in `allLocations`. -/
theorem mem_allLocations_of_links {pa : PageAnalysis} {e : PageLink}
    (h : e ∈ linksOfPA pa) : e.location ∈ allLocations pa := by
  simp only [allLocations, List.mem_append, List.mem_map]
  exact Or.inl (Or.inl (Or.inr ⟨e, h, rfl⟩))

/-- A location taken from the forms collection occurs in `allLocations`. -/
theorem mem_allLocations_of_forms {pa : PageAnalysis} {e : FormEl}
    (h : e ∈ formsOfPA pa) : e.location ∈ allLocations pa := by
  simp only [allLocations, List.mem_append, List.mem_map]
  exact Or.inl (Or.inr ⟨e, h, rfl⟩)

/-- A location taken from the navigation collection occurs in `allLocations`. -/
theorem mem_allLocations_of_navs {pa : PageAnalysis} {e : NavEl}
    (h : e ∈ navOfPA pa) : e.location ∈ allLocations pa := by
  simp only [allLocations, List.mem_append, List.mem_map]
  exact Or.inr ⟨e, h, rfl⟩

/-- Whatever the `switch` block assigns comes from one of the seven
collections of the page analysis. -/
theorem resolveByType_mem {il : List Char} {pa : PageAnalysis} {index : Nat}
    {t : IssueType} {b : BBox} (h : resolveByType il pa index t = some b) :
    b ∈ allLocations pa := by
  cases t <;>
    simp only [resolveByType] at h <;>
    split_ifs at h <;>
    first
      | exact Option.noConfusion h
      | (obtain ⟨e, he, rfl⟩ := Option.map_eq_some'.mp h
         first
           | exact mem_allLocations_of_images (List.getElem?_mem he)
           | exact mem_allLocations_of_videos (List.getElem?_mem he)
           | exact mem_allLocations_of_headings (List.getElem?_mem he)
           | exact mem_allLocations_of_paragraphs (List.getElem?_mem he)
           | exact mem_allLocations_of_links (List.getElem?_mem he)
           | exact mem_allLocations_of_forms (List.getElem?_mem he)
           | exact mem_allLocations_of_navs (List.getElem?_mem he))

/-- Whatever the final fallback chain returns comes from one of the seven
collections of the page analysis. -/
theorem fallbackChain_mem {pa : PageAnalysis} {b : BBox}
    (h : fallbackChain pa = some b) : b ∈ allLocations pa := by
  unfold fallbackChain at h
  split at h <;>
    first
      | exact Option.noConfusion h
      | (injection h with hb; subst hb; simp_all [allLocations])

/-- The fallback chain yields nothing exactly when all seven collections
are empty. -/
theorem fallbackChain_eq_none_iff (pa : PageAnalysis) :
    fallbackChain pa = none ↔
      (imagesOfPA pa = [] ∧ videosOfPA pa = [] ∧ headingsOfPA pa = [] ∧
       paragraphsOfPA pa = [] ∧ linksOfPA pa = [] ∧ formsOfPA pa = [] ∧
       navOfPA pa = []) := by
  rcases hi : imagesOfPA pa with _ | ⟨i, itl⟩ <;>
  rcases hh : headingsOfPA pa with _ | ⟨hd, htl⟩ <;>
  rcases hp : paragraphsOfPA pa with _ | ⟨p, ptl⟩ <;>
  rcases hl : linksOfPA pa with _ | ⟨l, ltl⟩ <;>
  rcases hf : formsOfPA pa with _ | ⟨f, ftl⟩ <;>
  rcases hn : navOfPA pa with _ | ⟨n, ntl⟩ <;>
  rcases hv : videosOfPA pa with _ | ⟨v, vtl⟩ <;>
    simp [fallbackChain, hi, hh, hp, hl, hf, hn, hv]

/-- `hasElements` is false exactly when all seven collections are empty. -/
theorem hasElements_eq_false_iff (pa : PageAnalysis) :
    hasElements pa = false ↔
      (imagesOfPA pa = [] ∧ videosOfPA pa = [] ∧ headingsOfPA pa = [] ∧
       paragraphsOfPA pa = [] ∧ linksOfPA pa = [] ∧ formsOfPA pa = [] ∧
       navOfPA pa = []) := by
  simp [hasElements, List.isEmpty_iff]
  tauto

/-- C9 (counterexample): the stop test compares the accumulator with the
scroll height **re-read at the current tick**, so on a page whose scroll
height grows by 200 per tick the sweep never stops — the claim that the
sweep terminates for every page, including pages whose scroll height grows
during the sweep, is false. -/
theorem autoScroll_not_terminating_on_growing_page :
    ¬ autoScrollTerminates (fun t => 200 * (t + 1)) := by
  rintro ⟨t, ht⟩
  simp only [autoScrollStopsAt, ge_iff_le] at ht
  omega

/-- C9 (amended): the sweep advances by a fixed step of 100 at a fixed
poll interval and stops once the accumulated scroll position reaches the
scroll height read at the current tick; hence it terminates on every page
whose scroll height stays bounded during the sweep. -/
theorem autoScroll_terminates_of_bounded (scrollHeight : Nat → Nat) (H : Nat)
    (hb : ∀ t, scrollHeight t ≤ H) : autoScrollTerminates scrollHeight := by
  refine ⟨H / 100, ?_⟩
  have h := hb (H / 100)
  simp only [autoScrollStopsAt, ge_iff_le]
  omega

/-- C9 witness: a page of constant scroll height 300 terminates. -/
theorem autoScroll_terminates_witness : autoScrollTerminates (fun _ => 300) :=
  autoScroll_terminates_of_bounded (fun _ => 300) 300 (fun _ => Nat.le_refl 300)

/-- C2: the narrative `"Exit Points:\nA\nB\n\nDesign Issues:\nC"` parses to
exitPoints `["A","B"]`, designIssues `["C"]`, recommendations `[]`; and in
every narrative, a section whose label does not occur yields the empty
list (the parser is total, so no error is possible). -/
theorem parseVisual_example_and_missing_section_empty :
    (parseVisualNarrative (String.toList "Exit Points:\nA\nB\n\nDesign Issues:\nC") =
      { exitPoints := ["A", "B"], designIssues := ["C"], recommendations := [] }) ∧
    ∀ text : List Char,
      (containsSub (String.toList "Exit Points:") text = false →
        (parseVisualNarrative text).exitPoints = []) ∧
      (containsSub (String.toList "Design Issues:") text = false →
        (parseVisualNarrative text).designIssues = []) ∧
      (containsSub (String.toList "Recommendations:") text = false →
        (parseVisualNarrative text).recommendations = []) := by
  refine ⟨by decide, fun text => ⟨fun h => ?_, fun h => ?_, fun h => ?_⟩⟩ <;>
  · simp only [parseVisualNarrative, sectionBetween, sectionToEnd]
    rw [findAfter_eq_none_of_not_contains _ _ h]
    rfl

/-- C2 witness: a narrative with none of the labels yields empty lists. -/
theorem parseVisual_missing_section_witness :
    (parseVisualNarrative (String.toList "hello")).exitPoints = [] :=
  ((parseVisual_example_and_missing_section_empty.2 (String.toList "hello")).1) (by decide)

/-- C1 (counterexample): when the assets request resolves with empty
content (`choices[0].message.content` empty), the assets category is the
all-empty record, not the synthetic
`{performanceIssues: ["Error analyzing assets with AI"], ...}` record the
claim requires for every failure including empty content. -/
theorem assets_empty_content_is_not_error_record :
    analyzeAssetsWithAI (AIOutcome.ok "") =
      { performanceIssues := [], accessibilityIssues := [], seoIssues := [],
        bestPractices := [], recommendations := [] } ∧
    analyzeAssetsWithAI (AIOutcome.ok "") ≠ errorAssetsAnalysis := by
  constructor
  · decide
  · decide

/-- C1 (amended): when the assets request **throws** (network error,
non-success status, malformed response shape), the assets category equals
exactly the synthetic error record, while the visual and content category
outcomes are identical to what they would be under any other assets
outcome, and the pipeline still returns a result (the assembly is total). -/
theorem assets_failure_is_local (v c a a' : AIOutcome) :
    (analyzeAnalysis v AIOutcome.err c).assets = errorAssetsAnalysis ∧
    (analyzeAnalysis v a c).visual = (analyzeAnalysis v a' c).visual ∧
    (analyzeAnalysis v a c).content = (analyzeAnalysis v a' c).content :=
  ⟨rfl, rfl, rfl⟩

/-- C8 (counterexample): the filter `!point.match(/^[-•*]/)` drops every
line that *starts* with a bullet marker, not only pure bullet-marker
lines — a line consisting of a bullet marker followed by issue text is
discarded, where the claim says it is retained. -/
theorem processPoints_drops_bullet_text_line :
    processPoints (String.toList "- Fix low contrast") = [] := by decide

/-- C8 (amended): the section post-processing splits on line breaks,
trims each line, drops empty lines and every line beginning with a bullet
marker (whether or not text follows the marker), then strips leading
`"N. "` ordinals from the survivors; the surviving lines appear in the
output in their original order (the output is a sublist of the trimmed,
ordinal-stripped lines), and every output line arises from an input line
whose trim is non-empty and does not start with a bullet marker. -/
theorem processPoints_keeps_order_and_drops_bullets (s : List Char) :
    (processPoints s).Sublist
      ((splitNl s).map (fun l => stripOrdinal (trimChars l))) ∧
    ∀ p ∈ processPoints s, ∃ raw ∈ splitNl s,
      trimChars raw ≠ [] ∧ startsBullet (trimChars raw) = false ∧
      p = stripOrdinal (trimChars raw) := by
  constructor
  · have h1 : (((splitNl s).map trimChars).filter
        (fun p => !p.isEmpty && !startsBullet p)).Sublist
        ((splitNl s).map trimChars) := List.filter_sublist _
    have h2 := h1.map stripOrdinal
    simpa [processPoints, List.map_map, Function.comp] using h2
  · intro p hp
    simp only [processPoints, List.mem_map, List.mem_filter] at hp
    obtain ⟨q, ⟨hq, hpred⟩, rfl⟩ := hp
    obtain ⟨raw, hraw, rfl⟩ := hq
    refine ⟨raw, hraw, ?_, ?_, rfl⟩
    · have := (Bool.and_eq_true _ _).mp hpred |>.1
      simpa using this
    · have := (Bool.and_eq_true _ _).mp hpred |>.2
      simpa using this

/-- C8 witness: `"1. Foo"` survives as `"Foo"`, produced from a line whose
trim is non-empty and bullet-free. -/
theorem processPoints_keeps_order_witness :
    ∃ raw ∈ splitNl (String.toList "1. Foo"),
      trimChars raw ≠ [] ∧ startsBullet (trimChars raw) = false ∧
      String.toList "Foo" = stripOrdinal (trimChars raw) :=
  (processPoints_keeps_order_and_drops_bullets (String.toList "1. Foo")).2
    (String.toList "Foo") (by decide)

/-- C7 (counterexample): the express `analyze` pipeline
(src/api/analyze.js) has no credential check — on a run without a
credential its requests are still issued and all fail, producing the
per-category error records, which differ from the Heuristic Analyzer
output (here at the empty page). -/
theorem express_pipeline_ignores_missing_credential :
    (analyzeExpress AIOutcome.err AIOutcome.err AIOutcome.err).2 = true ∧
    (analyzeExpress AIOutcome.err AIOutcome.err AIOutcome.err).1 ≠
      generateDefaultAnalysis emptyPageContent emptyAssets := by
  constructor
  · rfl
  · decide

/-- C7 (amended): in the serverless handler's `analyzePageContent`, a
missing model credential bypasses the orchestrator entirely: the whole
result equals the Heuristic Analyzer output and no model request is
issued — regardless of what the model would have answered. -/
theorem serverless_bypasses_ai_without_credential (ai : AIJsonOutcome)
    (content : PageContent) (assets : Assets) :
    analyzePageContent false ai content assets =
      (generateDefaultAnalysis content assets, false) := rfl

/-- C5: with `N > 0` images of empty/missing alt text the Heuristic
Analyzer emits exactly one accessibility issue, whose embedded count is
`N`, plus exactly one companion recommendation; with `N = 0` it emits
neither. -/
theorem heuristic_alt_text_rule (content : PageContent) (assets : Assets) :
    (0 < (assets.images.filter (fun img => missingAlt img.alt)).length →
      (generateDefaultAnalysis content assets).assets.accessibilityIssues =
        [toString (assets.images.filter (fun img => missingAlt img.alt)).length ++
          " images missing alt text"] ∧
      (generateDefaultAnalysis content assets).assets.recommendations.count
          "Add descriptive alt text to all images" = 1) ∧
    ((assets.images.filter (fun img => missingAlt img.alt)).length = 0 →
      (generateDefaultAnalysis content assets).assets.accessibilityIssues = [] ∧
      (generateDefaultAnalysis content assets).assets.recommendations.count
          "Add descriptive alt text to all images" = 0) := by
  constructor <;> intro h <;> constructor <;>
    simp [generateDefaultAnalysis, h, List.count_append] <;>
    split_ifs <;> simp [List.count_cons, List.count_nil]

/-- C5 witness: two images with empty/whitespace alt text produce the
counted issue and exactly one companion recommendation. -/
theorem heuristic_alt_text_rule_witness :
    (generateDefaultAnalysis emptyPageContent altWitnessAssets).assets.accessibilityIssues =
      [toString (altWitnessAssets.images.filter (fun img => missingAlt img.alt)).length ++
        " images missing alt text"] ∧
    (generateDefaultAnalysis emptyPageContent altWitnessAssets).assets.recommendations.count
        "Add descriptive alt text to all images" = 1 :=
  (heuristic_alt_text_rule emptyPageContent altWitnessAssets).1 (by decide)

/-- C6: on a page with at least one heading, zero H1s yield exactly the
"no H1" structure issue, `k ≥ 2` H1s yield exactly one "multiple H1"
issue with the count `k` embedded, and exactly one H1 yields neither. -/
theorem heuristic_h1_rule (content : PageContent) (assets : Assets)
    (hne : headingsOf content ≠ []) :
    (((headingsOf content).filter (fun h => h.level == 1)).length = 0 →
      (generateDefaultAnalysis content assets).content.structureIssues =
        ["No H1 heading found"]) ∧
    (2 ≤ ((headingsOf content).filter (fun h => h.level == 1)).length →
      (generateDefaultAnalysis content assets).content.structureIssues =
        ["Multiple H1 headings (" ++
          toString ((headingsOf content).filter (fun h => h.level == 1)).length ++
          ") found"]) ∧
    (((headingsOf content).filter (fun h => h.level == 1)).length = 1 →
      (generateDefaultAnalysis content assets).content.structureIssues = []) := by
  have hlen : ¬ (headingsOf content).length = 0 := by
    simpa [List.length_eq_zero] using hne
  refine ⟨fun hk => ?_, fun hk => ?_, fun hk => ?_⟩
  · simp [generateDefaultAnalysis, hlen, hk]
  · have h1 : ¬ ((headingsOf content).filter (fun h => h.level == 1)).length = 0 := by
      omega
    have h2 : ((headingsOf content).filter (fun h => h.level == 1)).length > 1 := by
      omega
    simp [generateDefaultAnalysis, hlen, h1, h2]
  · simp [generateDefaultAnalysis, hlen, hk]

/-- C6 witness: a page with one H2 and no H1 gets exactly the "no H1"
structure issue. -/
theorem heuristic_h1_rule_witness :
    (generateDefaultAnalysis h2OnlyContent emptyAssets).content.structureIssues =
      ["No H1 heading found"] :=
  (heuristic_h1_rule h2OnlyContent emptyAssets (by decide)).1 (by decide)

/-- C3: the resolver returns "no location" exactly when the images,
videos, headings, paragraphs, links, forms and navigation collections are
all empty; with any element present it returns some bounding box. -/
theorem resolver_none_iff_no_elements (issue : String) (pa : PageAnalysis)
    (index : Nat) (t : IssueType) :
    findElementLocation issue pa index t = none ↔
      (imagesOfPA pa = [] ∧ videosOfPA pa = [] ∧ headingsOfPA pa = [] ∧
       paragraphsOfPA pa = [] ∧ linksOfPA pa = [] ∧ formsOfPA pa = [] ∧
       navOfPA pa = []) := by
  unfold findElementLocation
  cases hE : hasElements pa with
  | false =>
    have hall := (hasElements_eq_false_iff pa).mp hE
    simp [hE, hall]
  | true =>
    cases hr : resolveByType (toLowerChars issue.data) pa index t with
    | some loc =>
      constructor
      · intro hx
        simp [hE, hr] at hx
      · intro hRHS
        exfalso
        have hfalse := (hasElements_eq_false_iff pa).mpr hRHS
        rw [hE] at hfalse
        exact Bool.noConfusion hfalse
    | none =>
      simp only [hE, hr, Bool.not_true, Bool.false_eq_true, if_false]
      exact fallbackChain_eq_none_iff pa

/-- C4: with at least one link and an index at or past the end of the
link list, the exit-point rule clamps to the last link and returns its
bounding box — never "no location". -/
theorem exitPoint_index_clamps_to_last_link (issue : String) (pa : PageAnalysis)
    (index : Nat) (lastLink : PageLink)
    (hlast : (linksOfPA pa).getLast? = some lastLink)
    (hidx : (linksOfPA pa).length ≤ index) :
    findElementLocation issue pa index IssueType.exitPoint =
      some lastLink.location := by
  have hne : linksOfPA pa ≠ [] := by
    intro hnil
    rw [hnil] at hlast
    exact Option.noConfusion hlast
  have hpos : 0 < (linksOfPA pa).length := List.length_pos.mpr hne
  have hE : hasElements pa = true := by
    have hfe : (linksOfPA pa).isEmpty = false := List.isEmpty_eq_false.mpr hne
    simp [hasElements, hfe]
  have hres : resolveByType (toLowerChars issue.data) pa index IssueType.exitPoint =
      some lastLink.location := by
    have hmin : min index ((linksOfPA pa).length - 1) =
        (linksOfPA pa).length - 1 := by omega
    have hget : (linksOfPA pa)[(linksOfPA pa).length - 1]? = some lastLink := by
      rw [← List.getLast?_eq_getElem?]
      exact hlast
    simp only [resolveByType]
    rw [if_pos hpos, hmin, hget]
    rfl
  unfold findElementLocation
  simp [hE, hres]

/-- C4 witness: one link, index 5 past the end, resolves to that link's
box. -/
theorem exitPoint_clamp_witness :
    findElementLocation "x" oneLinkPA 5 IssueType.exitPoint =
      some ({ url := "u", text := "home", location := bb0 } : PageLink).location :=
  exitPoint_index_clamps_to_last_link "x" oneLinkPA 5
    { url := "u", text := "home", location := bb0 } (by decide) (by decide)

/-- C10: every bounding box the resolver returns is the location field of
an element actually present in the page analysis — it never synthesizes
coordinates. -/
theorem resolver_location_comes_from_page (issue : String) (pa : PageAnalysis)
    (index : Nat) (t : IssueType) (b : BBox)
    (h : findElementLocation issue pa index t = some b) :
    b ∈ allLocations pa := by
  unfold findElementLocation at h
  split at h
  · exact Option.noConfusion h
  · split at h
    · rename_i loc heq
      injection h with hb
      subst hb
      exact resolveByType_mem heq
    · exact fallbackChain_mem h

/-- C10 witness: with one image on the page the resolver's answer is that
image's recorded box. -/
theorem resolver_location_witness : bb0 ∈ allLocations oneImagePA :=
  resolver_location_comes_from_page "x" oneImagePA 0 IssueType.other bb0 (by decide)

end StarWeb
